import Mathlib

set_option maxHeartbeats 1000000
set_option linter.unusedVariables false

/-
Verification of cpp/core/utils/Print.h (namespace gluten): a compile-time
gated collection of debug-printing helpers.  The output sink (std::cout) is
modelled as the string written so far; `std::endl` contributes the text "\n".
Printable values are modelled by their textual rendering (a `String`), and
objects carrying a `ToString()` / `toString()` method by the pre-rendered
string that method returns.  Iterator ranges are modelled either as the list
of elements the range traverses (for the well-behaved loops that advance the
cursor once per iteration) or as a start index and a stop index into an
ambient element list (for the loops whose cursor arithmetic matters).
Brace characters inside string literals are written with their escapes
\x7b and \x7d.
-/

namespace gluten

/-- The output sink: standard output, modelled as the string written so far. -/
abbrev Sink := String

/-- One stream insertion `std::cout << x`: append the rendering of `x`. -/
def emit (sink : Sink) (x : String) : Sink := sink ++ x

/-- Print.h line 16: `Print(t)` writes `t`. -/
def Print (t : String) (sink : Sink) : Sink :=
  emit sink t

/-- Print.h line 21: `PrintLF(t)` writes `t` then `std::endl`. -/
def PrintLF (t : String) (sink : Sink) : Sink :=
  emit (emit sink t) "\n"

/-- Print.h line 26: two-argument overload `Print(a, b)` writes `a` then `b`. -/
def Print2 (a b : String) (sink : Sink) : Sink :=
  emit (emit sink a) b

/-- Print.h line 31: two-argument overload `PrintLF(a, b)`. -/
def PrintLF2 (a b : String) (sink : Sink) : Sink :=
  emit (emit (emit sink a) b) "\n"

/-- Print.h line 36: `PrintSplit(a, b, split)`; the C++ default for
`split` is ": ", which callers of the model pass explicitly. -/
def PrintSplit (a b split : String) (sink : Sink) : Sink :=
  emit (emit (emit sink a) split) b

/-- Print.h line 41: `PrintSplitLF(a, b, split)`. -/
def PrintSplitLF (a b split : String) (sink : Sink) : Sink :=
  emit (emit (emit (emit sink a) split) b) "\n"

/-- Print.h line 46: `PrintEQ(a, b)` writes `a`, " = ", `b`. -/
def PrintEQ (a b : String) (sink : Sink) : Sink :=
  emit (emit (emit sink a) " = ") b

/-- Print.h line 51: `PrintEQLF(a, b)` writes `a`, " = ", `b`, newline. -/
def PrintEQLF (a b : String) (sink : Sink) : Sink :=
  emit (emit (emit (emit sink a) " = ") b) "\n"

/-- Print.h line 56: `PrintVS(a, b)` writes `a`, " vs ", `b`. -/
def PrintVS (a b : String) (sink : Sink) : Sink :=
  emit (emit (emit sink a) " vs ") b

/-- Print.h line 61: `PrintVSLF(a, b)`. -/
def PrintVSLF (a b : String) (sink : Sink) : Sink :=
  emit (emit (emit (emit sink a) " vs ") b) "\n"

/-- Print.h line 66: `PrintElement(e, first)`: writes ", " unless `first`,
then `e`.  The C++ default for `first` is `false`. -/
def PrintElement (e : String) (first : Bool) (sink : Sink) : Sink :=
  emit (if first then sink else emit sink ", ") e

/-- Loop body of Print.h line 76: one pass per element of the traversed
range, writing the element then " ". -/
def printRangeLoop (elems : List String) (sink : Sink) : Sink :=
  match elems with
  | [] => sink
  | e :: rest => printRangeLoop rest (emit (emit sink e) " ")

/-- Print.h line 74: `PrintRange(begin, end)` over a range traversing
`elems`: writes "\x7b ", each element followed by " ", then "\x7d" and a
newline. -/
def PrintRange (elems : List String) (sink : Sink) : Sink :=
  emit (emit (printRangeLoop elems (emit sink "\x7b ")) "\x7d") "\n"

/-- Print.h line 83: `PrintContainer(c, containerName)`: optional label
(suppressed when empty), "size = N ", then `PrintRange` over the whole
container. -/
def PrintContainer (elems : List String) (containerName : String) (sink : Sink) : Sink :=
  let sink := if containerName = "" then sink else emit (emit sink containerName) " "
  PrintRange elems (emit (emit (emit sink "size = ") (toString elems.length)) " ")

/-- Print.h line 92: `PrintAB2String(a, b)` writes `a`, " = ",
`b.toString()`, newline; `b` is modelled by its pre-rendered string. -/
def PrintAB2String (a b : String) (sink : Sink) : Sink :=
  emit (emit (emit (emit sink a) " = ") b) "\n"

/-- Print.h line 97: `Print2String(t, prefix)`: optional prefix followed by
": " (suppressed when the prefix is empty), then `t.toString()` and a
newline. -/
def Print2String (t pfx : String) (sink : Sink) : Sink :=
  let sink := if pfx = "" then sink else emit (emit sink pfx) ": "
  emit (emit sink t) "\n"

/-- Loop of Print.h lines 107-110 (`PrintRangeToString`): the body writes
`begin->ToString()` and " ", then advances the cursor a second time, so the
cursor moves by two per iteration and the `begin != end` test can be missed
forever.  The cursor is an index `i` into the ambient list `elems` (reads
past the range yield an arbitrary default, standing for the indeterminate
bytes an out-of-range C++ iterator would produce); `fuel` bounds the number
of loop iterations the model is allowed to run, `none` meaning the C++ loop
has not terminated within that bound.  Lemmas below show the result is
independent of the bound wherever the C++ loop terminates. -/
def printRangeToStringLoop : Nat → List String → Nat → Nat → Sink → Option Sink
  | 0, _, _, _, _ => none
  | fuel + 1, elems, i, stop, sink =>
    if i = stop then some sink
    else printRangeToStringLoop fuel elems (i + 2) stop (emit (emit sink (elems.getD i "")) " ")

/-- Fuel sufficient for `printRangeToStringLoop` whenever the C++ loop
terminates: the loop needs exactly `(stop - i) / 2 + 1` guard evaluations
when `stop - i` is even, and never terminates otherwise (in which case every
fuel yields `none`, as proved below). -/
def rangeFuel (i stop : Nat) : Nat := (stop - i) / 2 + 1

/-- Print.h line 105: `PrintRangeToString(begin, end)` writes "\x7b ", runs
the double-advancing loop, then writes "\x7d" with no newline.  `none`
means the call never returns. -/
def PrintRangeToString (elems : List String) (i stop : Nat) (sink : Sink) : Option Sink :=
  (printRangeToStringLoop (rangeFuel i stop) elems i stop (emit sink "\x7b ")).map
    (fun s => emit s "\x7d")

/-- Loop of Print.h lines 117-120 (`PrintRange2String`): identical to
`printRangeToStringLoop` except that the element method is `toString()`;
elements are pre-rendered strings either way. -/
def printRange2StringLoop : Nat → List String → Nat → Nat → Sink → Option Sink
  | 0, _, _, _, _ => none
  | fuel + 1, elems, i, stop, sink =>
    if i = stop then some sink
    else printRange2StringLoop fuel elems (i + 2) stop (emit (emit sink (elems.getD i "")) " ")

/-- Print.h line 115: `PrintRange2String(begin, end)`. -/
def PrintRange2String (elems : List String) (i stop : Nat) (sink : Sink) : Option Sink :=
  (printRange2StringLoop (rangeFuel i stop) elems i stop (emit sink "\x7b ")).map
    (fun s => emit s "\x7d")

/-- Print.h line 125: `PrintContainerToString(c, containerName)`: optional
label, "size = N" and a newline, then `PrintRangeToString` over the whole
container (cursor 0 to `c.size()`). -/
def PrintContainerToString (elems : List String) (containerName : String) (sink : Sink) :
    Option Sink :=
  let sink := if containerName = "" then sink else emit (emit sink containerName) " "
  PrintRangeToString elems 0 elems.length
    (emit (emit (emit sink "size = ") (toString elems.length)) "\n")

/-- Print.h line 134: `PrintContainer2String(c, containerName)`. -/
def PrintContainer2String (elems : List String) (containerName : String) (sink : Sink) :
    Option Sink :=
  let sink := if containerName = "" then sink else emit (emit sink containerName) " "
  PrintRange2String elems 0 elems.length
    (emit (emit (emit sink "size = ") (toString elems.length)) "\n")

/-- Loop of Print.h line 145: for each owned element `x`, write " " then
`x->ToString()`. -/
def printVectorToStringLoop (elems : List String) (sink : Sink) : Sink :=
  match elems with
  | [] => sink
  | e :: rest => printVectorToStringLoop rest (emit (emit sink " ") e)

/-- Print.h line 143: `PrintVectorToString(c, containerName)`: writes the
label and " = \x7b" unconditionally (no emptiness test, unlike
`PrintContainer`), the loop, then " \x7d" and a newline. -/
def PrintVectorToString (elems : List String) (containerName : String) (sink : Sink) : Sink :=
  emit (emit (printVectorToStringLoop elems (emit (emit sink containerName) " = \x7b")) " \x7d")
    "\n"

/-- Loop of Print.h line 154 (`PrintVector2String`), same shape. -/
def printVector2StringLoop (elems : List String) (sink : Sink) : Sink :=
  match elems with
  | [] => sink
  | e :: rest => printVector2StringLoop rest (emit (emit sink " ") e)

/-- Print.h line 152: `PrintVector2String(c, containerName)`. -/
def PrintVector2String (elems : List String) (containerName : String) (sink : Sink) : Sink :=
  emit (emit (printVector2StringLoop elems (emit (emit sink containerName) " = \x7b")) " \x7d")
    "\n"

/-- Loop of Print.h lines 163-166: `for (size_t i = 0; i < v.size(); ++i)`
writes `Print("\t")` then `PrintSplitLF(i, v[i], " -> ")`.  The counter
starts at `i` with `rem` iterations remaining (`rem = v.size() - i`); the
countdown makes the bounded `<` loop structural. -/
def printVectorMappingLoop (v : List String) (i : Nat) : Nat → Sink → Sink
  | 0, sink => sink
  | rem + 1, sink =>
    printVectorMappingLoop v (i + 1) rem
      (PrintSplitLF (toString i) (v.getD i "") " -> " (Print "\t" sink))

/-- Print.h line 161: `PrintVectorMapping(v, vectorName)`: writes the name
followed by "\n\x7b\n" unconditionally (no emptiness test), the per-index
lines, then "\x7d" and a newline. -/
def PrintVectorMapping (v : List String) (vectorName : String) (sink : Sink) : Sink :=
  emit (emit (printVectorMappingLoop v 0 v.length (emit (emit sink vectorName) "\n\x7b\n"))
    "\x7d") "\n"

/-- Loop of Print.h lines 174-176: `for (; index != end; ++index)` calls
`PrintElement(v[index], index == begin)`.  The counter starts at `i` with
`rem = end - begin` iterations remaining; this renders the `!=` test
faithfully on the defined domain `begin <= end` (for `begin > end` the C++
unsigned loop runs until wraparound through out-of-bounds reads, which the
spec declares undefined). -/
def printVectorRangeLoop (v : List String) (b : Nat) (i : Nat) : Nat → Sink → Sink
  | 0, sink => sink
  | rem + 1, sink =>
    printVectorRangeLoop v b (i + 1) rem (PrintElement (v.getD i "") (i == b) sink)

/-- Print.h line 171: `PrintVectorRange(v, begin, end)`: writes "\x7b", the
loop from `begin` to `stop`, then "\x7d" and a newline. -/
def PrintVectorRange (v : List String) (b stop : Nat) (sink : Sink) : Sink :=
  emit (emit (printVectorRangeLoop v b b (stop - b) (emit sink "\x7b")) "\x7d") "\n"

/-
Disabled mode (Print.h lines 199-263, the `#else` branch of
GLUTEN_PRINT_DEBUG): each declared stub keeps the very same argument list
and an empty body, so the sink is returned untouched.  The branch mirrors
every enabled function except one: it declares no `PrintRange2String` stub
(that template exists only in the enabled branch, line 115), so that
operation has no disabled counterpart at all.
-/

namespace Disabled

/-- Print.h line 200: disabled stub of `Print(t)`. -/
def Print (t : String) (sink : Sink) : Sink := sink

/-- Print.h line 203: disabled stub of `PrintLF(t)`. -/
def PrintLF (t : String) (sink : Sink) : Sink := sink

/-- Print.h line 206: disabled stub of `Print(a, b)`. -/
def Print2 (a b : String) (sink : Sink) : Sink := sink

/-- Print.h line 209: disabled stub of `PrintLF(a, b)`. -/
def PrintLF2 (a b : String) (sink : Sink) : Sink := sink

/-- Print.h line 212: disabled stub of `PrintSplit`. -/
def PrintSplit (a b split : String) (sink : Sink) : Sink := sink

/-- Print.h line 215: disabled stub of `PrintSplitLF`. -/
def PrintSplitLF (a b split : String) (sink : Sink) : Sink := sink

/-- Print.h line 218: disabled stub of `PrintEQ`. -/
def PrintEQ (a b : String) (sink : Sink) : Sink := sink

/-- Print.h line 221: disabled stub of `PrintEQLF`. -/
def PrintEQLF (a b : String) (sink : Sink) : Sink := sink

/-- Print.h line 224: disabled stub of `PrintVS`. -/
def PrintVS (a b : String) (sink : Sink) : Sink := sink

/-- Print.h line 227: disabled stub of `PrintVSLF`. -/
def PrintVSLF (a b : String) (sink : Sink) : Sink := sink

/-- Print.h line 230: disabled stub of `PrintElement`. -/
def PrintElement (e : String) (first : Bool) (sink : Sink) : Sink := sink

/-- Print.h line 233: disabled stub of `PrintRange`. -/
def PrintRange (elems : List String) (sink : Sink) : Sink := sink

/-- Print.h line 236: disabled stub of `PrintContainer`. -/
def PrintContainer (elems : List String) (containerName : String) (sink : Sink) : Sink := sink

/-- Print.h line 239: disabled stub of `PrintAB2String`. -/
def PrintAB2String (a b : String) (sink : Sink) : Sink := sink

/-- Print.h line 242: disabled stub of `Print2String`. -/
def Print2String (t pfx : String) (sink : Sink) : Sink := sink

/-- Print.h line 245: disabled stub of `PrintRangeToString`.  There is no
corresponding stub for `PrintRange2String` anywhere in the disabled
branch. -/
def PrintRangeToString (elems : List String) (i stop : Nat) (sink : Sink) : Sink := sink

/-- Print.h line 248: disabled stub of `PrintContainerToString`. -/
def PrintContainerToString (elems : List String) (containerName : String) (sink : Sink) :
    Sink := sink

/-- Print.h line 251: disabled stub of `PrintContainer2String`. -/
def PrintContainer2String (elems : List String) (containerName : String) (sink : Sink) :
    Sink := sink

/-- Print.h line 254: disabled stub of `PrintVectorToString`. -/
def PrintVectorToString (elems : List String) (containerName : String) (sink : Sink) :
    Sink := sink

/-- Print.h line 257: disabled stub of `PrintVector2String`. -/
def PrintVector2String (elems : List String) (containerName : String) (sink : Sink) :
    Sink := sink

/-- Print.h line 260: disabled stub of `PrintVectorMapping`. -/
def PrintVectorMapping (v : List String) (vectorName : String) (sink : Sink) : Sink := sink

/-- Print.h line 263: disabled stub of `PrintVectorRange`. -/
def PrintVectorRange (v : List String) (b stop : Nat) (sink : Sink) : Sink := sink

end Disabled

/-- One operation of the facility together with its argument tuple.  The
same type serves the enabled and the disabled build, mirroring that every
function keeps an identical call signature in both modes. -/
inductive Op where
  | opPrint (t : String)
  | opPrintLF (t : String)
  | opPrint2 (a b : String)
  | opPrintLF2 (a b : String)
  | opPrintSplit (a b split : String)
  | opPrintSplitLF (a b split : String)
  | opPrintEQ (a b : String)
  | opPrintEQLF (a b : String)
  | opPrintVS (a b : String)
  | opPrintVSLF (a b : String)
  | opPrintElement (e : String) (first : Bool)
  | opPrintRange (elems : List String)
  | opPrintContainer (elems : List String) (containerName : String)
  | opPrintAB2String (a b : String)
  | opPrint2String (t pfx : String)
  | opPrintRangeToString (elems : List String) (i stop : Nat)
  | opPrintRange2String (elems : List String) (i stop : Nat)
  | opPrintContainerToString (elems : List String) (containerName : String)
  | opPrintContainer2String (elems : List String) (containerName : String)
  | opPrintVectorToString (elems : List String) (containerName : String)
  | opPrintVector2String (elems : List String) (containerName : String)
  | opPrintVectorMapping (v : List String) (vectorName : String)
  | opPrintVectorRange (v : List String) (b stop : Nat)

/-- Enabled-mode semantics of one call: the sink after the call, or `none`
when the call never returns (the double-advancing `ToString` loops on a
range the `!=` test never closes). -/
def runOp : Op → Sink → Option Sink
  | .opPrint t, sink => some (Print t sink)
  | .opPrintLF t, sink => some (PrintLF t sink)
  | .opPrint2 a b, sink => some (Print2 a b sink)
  | .opPrintLF2 a b, sink => some (PrintLF2 a b sink)
  | .opPrintSplit a b split, sink => some (PrintSplit a b split sink)
  | .opPrintSplitLF a b split, sink => some (PrintSplitLF a b split sink)
  | .opPrintEQ a b, sink => some (PrintEQ a b sink)
  | .opPrintEQLF a b, sink => some (PrintEQLF a b sink)
  | .opPrintVS a b, sink => some (PrintVS a b sink)
  | .opPrintVSLF a b, sink => some (PrintVSLF a b sink)
  | .opPrintElement e first, sink => some (PrintElement e first sink)
  | .opPrintRange elems, sink => some (PrintRange elems sink)
  | .opPrintContainer elems nm, sink => some (PrintContainer elems nm sink)
  | .opPrintAB2String a b, sink => some (PrintAB2String a b sink)
  | .opPrint2String t pfx, sink => some (Print2String t pfx sink)
  | .opPrintRangeToString elems i stop, sink => PrintRangeToString elems i stop sink
  | .opPrintRange2String elems i stop, sink => PrintRange2String elems i stop sink
  | .opPrintContainerToString elems nm, sink => PrintContainerToString elems nm sink
  | .opPrintContainer2String elems nm, sink => PrintContainer2String elems nm sink
  | .opPrintVectorToString elems nm, sink => some (PrintVectorToString elems nm sink)
  | .opPrintVector2String elems nm, sink => some (PrintVector2String elems nm sink)
  | .opPrintVectorMapping v nm, sink => some (PrintVectorMapping v nm sink)
  | .opPrintVectorRange v b stop, sink => some (PrintVectorRange v b stop sink)

/-- Whether the disabled `#else` branch of Print.h declares a stub for the
operation.  Read straight off lines 199-263: every enabled function is
mirrored except `PrintRange2String`, which exists only in the enabled
branch (line 115). -/
def hasDisabledStub : Op → Bool
  | .opPrintRange2String _ _ _ => false
  | _ => true

/-- Disabled-mode semantics of the same call type: each declared stub
returns the sink untouched; `opPrintRange2String` has no disabled
declaration at all, so a disabled-mode call to it has no semantics (it does
not compile), modelled as `none`. -/
def runOpDisabled : Op → Sink → Option Sink
  | .opPrint t, sink => some (Disabled.Print t sink)
  | .opPrintLF t, sink => some (Disabled.PrintLF t sink)
  | .opPrint2 a b, sink => some (Disabled.Print2 a b sink)
  | .opPrintLF2 a b, sink => some (Disabled.PrintLF2 a b sink)
  | .opPrintSplit a b split, sink => some (Disabled.PrintSplit a b split sink)
  | .opPrintSplitLF a b split, sink => some (Disabled.PrintSplitLF a b split sink)
  | .opPrintEQ a b, sink => some (Disabled.PrintEQ a b sink)
  | .opPrintEQLF a b, sink => some (Disabled.PrintEQLF a b sink)
  | .opPrintVS a b, sink => some (Disabled.PrintVS a b sink)
  | .opPrintVSLF a b, sink => some (Disabled.PrintVSLF a b sink)
  | .opPrintElement e first, sink => some (Disabled.PrintElement e first sink)
  | .opPrintRange elems, sink => some (Disabled.PrintRange elems sink)
  | .opPrintContainer elems nm, sink => some (Disabled.PrintContainer elems nm sink)
  | .opPrintAB2String a b, sink => some (Disabled.PrintAB2String a b sink)
  | .opPrint2String t pfx, sink => some (Disabled.Print2String t pfx sink)
  | .opPrintRangeToString elems i stop, sink =>
      some (Disabled.PrintRangeToString elems i stop sink)
  | .opPrintRange2String _ _ _, _ => none
  | .opPrintContainerToString elems nm, sink =>
      some (Disabled.PrintContainerToString elems nm sink)
  | .opPrintContainer2String elems nm, sink =>
      some (Disabled.PrintContainer2String elems nm sink)
  | .opPrintVectorToString elems nm, sink => some (Disabled.PrintVectorToString elems nm sink)
  | .opPrintVector2String elems nm, sink => some (Disabled.PrintVector2String elems nm sink)
  | .opPrintVectorMapping v nm, sink => some (Disabled.PrintVectorMapping v nm sink)
  | .opPrintVectorRange v b stop, sink => some (Disabled.PrintVectorRange v b stop sink)

/-
Specification-side rendering helpers, used only to state what the output
looks like.
-/

/-- Concatenation of a list of strings. -/
def joinAll : List String → String
  | [] => ""
  | x :: xs => x ++ joinAll xs

/-- Comma-separated rendering: first element bare, every further element
prefixed by ", " (the format the spec ascribes to `print-vector-range`). -/
def commaSep : List String → String
  | [] => ""
  | x :: xs => x ++ joinAll (xs.map (fun y => ", " ++ y))

/-- Elements of `v` at indices `i, i + 2, ...` (`k` of them), each followed
by " ": the text the double-advancing `ToString` loops emit. -/
def evenPositions (v : List String) (i : Nat) : Nat → String
  | 0 => ""
  | k + 1 => v.getD i "" ++ " " ++ evenPositions v (i + 2) k

/-
Relocation lemmas: running any piece of the facility on a sink of the form
`a ++ s` yields `a ++` (the run on `s`).  They isolate the fact that every
write is a plain append to the stream.
-/

theorem PrintElement_append (e : String) (first : Bool) (a s : Sink) :
    PrintElement e first (a ++ s) = a ++ PrintElement e first s := by
  cases first <;> simp [PrintElement, emit, String.append_assoc]

theorem printRangeLoop_append (elems : List String) (a s : Sink) :
    printRangeLoop elems (a ++ s) = a ++ printRangeLoop elems s := by
  induction elems generalizing s with
  | nil => rfl
  | cons e rest ih =>
    simp only [printRangeLoop, emit, String.append_assoc]
    exact ih (s ++ (e ++ " "))

theorem printRangeToStringLoop_append (fuel : Nat) (elems : List String) (i stop : Nat)
    (a s : Sink) :
    printRangeToStringLoop fuel elems i stop (a ++ s)
      = (printRangeToStringLoop fuel elems i stop s).map (fun r => a ++ r) := by
  induction fuel generalizing i s with
  | zero => rfl
  | succ fuel ih =>
    by_cases h : i = stop
    · simp [printRangeToStringLoop, h]
    · simp only [printRangeToStringLoop, h, if_false, emit, String.append_assoc]
      exact ih (i + 2) (s ++ (elems.getD i "" ++ " "))

theorem printRange2StringLoop_append (fuel : Nat) (elems : List String) (i stop : Nat)
    (a s : Sink) :
    printRange2StringLoop fuel elems i stop (a ++ s)
      = (printRange2StringLoop fuel elems i stop s).map (fun r => a ++ r) := by
  induction fuel generalizing i s with
  | zero => rfl
  | succ fuel ih =>
    by_cases h : i = stop
    · simp [printRange2StringLoop, h]
    · simp only [printRange2StringLoop, h, if_false, emit, String.append_assoc]
      exact ih (i + 2) (s ++ (elems.getD i "" ++ " "))

theorem printVectorToStringLoop_append (elems : List String) (a s : Sink) :
    printVectorToStringLoop elems (a ++ s) = a ++ printVectorToStringLoop elems s := by
  induction elems generalizing s with
  | nil => rfl
  | cons e rest ih =>
    simp only [printVectorToStringLoop, emit, String.append_assoc]
    exact ih (s ++ (" " ++ e))

theorem printVector2StringLoop_append (elems : List String) (a s : Sink) :
    printVector2StringLoop elems (a ++ s) = a ++ printVector2StringLoop elems s := by
  induction elems generalizing s with
  | nil => rfl
  | cons e rest ih =>
    simp only [printVector2StringLoop, emit, String.append_assoc]
    exact ih (s ++ (" " ++ e))

theorem printVectorMappingLoop_append (v : List String) (i rem : Nat) (a s : Sink) :
    printVectorMappingLoop v i rem (a ++ s) = a ++ printVectorMappingLoop v i rem s := by
  induction rem generalizing i s with
  | zero => rfl
  | succ rem ih =>
    simp only [printVectorMappingLoop, PrintSplitLF, Print, emit, String.append_assoc]
    exact ih (i + 1) _

theorem printVectorRangeLoop_append (v : List String) (b i rem : Nat) (a s : Sink) :
    printVectorRangeLoop v b i rem (a ++ s) = a ++ printVectorRangeLoop v b i rem s := by
  induction rem generalizing i s with
  | zero => rfl
  | succ rem ih =>
    simp only [printVectorRangeLoop, PrintElement_append]
    exact ih (i + 1) _

theorem PrintRange_append (elems : List String) (a s : Sink) :
    PrintRange elems (a ++ s) = a ++ PrintRange elems s := by
  simp [PrintRange, emit, String.append_assoc, printRangeLoop_append]

theorem PrintContainer_append (elems : List String) (nm : String) (a s : Sink) :
    PrintContainer elems nm (a ++ s) = a ++ PrintContainer elems nm s := by
  by_cases h : nm = "" <;>
    simp [PrintContainer, h, emit, String.append_assoc, printRangeLoop_append, PrintRange]

theorem Print2String_append (t pfx : String) (a s : Sink) :
    Print2String t pfx (a ++ s) = a ++ Print2String t pfx s := by
  by_cases h : pfx = "" <;> simp [Print2String, h, emit, String.append_assoc]

theorem PrintRangeToString_append (elems : List String) (i stop : Nat) (a s : Sink) :
    PrintRangeToString elems i stop (a ++ s)
      = (PrintRangeToString elems i stop s).map (fun r => a ++ r) := by
  simp only [PrintRangeToString, emit, String.append_assoc, printRangeToStringLoop_append,
    Option.map_map]
  congr 1
  funext r
  simp [Function.comp, String.append_assoc]

theorem PrintRange2String_append (elems : List String) (i stop : Nat) (a s : Sink) :
    PrintRange2String elems i stop (a ++ s)
      = (PrintRange2String elems i stop s).map (fun r => a ++ r) := by
  simp only [PrintRange2String, emit, String.append_assoc, printRange2StringLoop_append,
    Option.map_map]
  congr 1
  funext r
  simp [Function.comp, String.append_assoc]

theorem PrintContainerToString_append (elems : List String) (nm : String) (a s : Sink) :
    PrintContainerToString elems nm (a ++ s)
      = (PrintContainerToString elems nm s).map (fun r => a ++ r) := by
  by_cases h : nm = "" <;>
    simp [PrintContainerToString, h, emit, String.append_assoc, PrintRangeToString_append]

theorem PrintContainer2String_append (elems : List String) (nm : String) (a s : Sink) :
    PrintContainer2String elems nm (a ++ s)
      = (PrintContainer2String elems nm s).map (fun r => a ++ r) := by
  by_cases h : nm = "" <;>
    simp [PrintContainer2String, h, emit, String.append_assoc, PrintRange2String_append]

theorem PrintVectorToString_append (elems : List String) (nm : String) (a s : Sink) :
    PrintVectorToString elems nm (a ++ s) = a ++ PrintVectorToString elems nm s := by
  simp [PrintVectorToString, emit, String.append_assoc, printVectorToStringLoop_append]

theorem PrintVector2String_append (elems : List String) (nm : String) (a s : Sink) :
    PrintVector2String elems nm (a ++ s) = a ++ PrintVector2String elems nm s := by
  simp [PrintVector2String, emit, String.append_assoc, printVector2StringLoop_append]

theorem PrintVectorMapping_append (v : List String) (nm : String) (a s : Sink) :
    PrintVectorMapping v nm (a ++ s) = a ++ PrintVectorMapping v nm s := by
  simp [PrintVectorMapping, emit, String.append_assoc, printVectorMappingLoop_append]

theorem PrintVectorRange_append (v : List String) (b stop : Nat) (a s : Sink) :
    PrintVectorRange v b stop (a ++ s) = a ++ PrintVectorRange v b stop s := by
  simp [PrintVectorRange, emit, String.append_assoc, printVectorRangeLoop_append]

/-- Master relocation fact: every operation of the facility, run on
`a ++ s`, produces `a ++` its run on `s`. -/
theorem runOp_append (o : Op) (a s : Sink) :
    runOp o (a ++ s) = (runOp o s).map (fun r => a ++ r) := by
  cases o <;>
    simp [runOp, Print, PrintLF, Print2, PrintLF2, PrintSplit, PrintSplitLF, PrintEQ,
      PrintEQLF, PrintVS, PrintVSLF, PrintElement_append, PrintRange_append,
      PrintContainer_append, PrintAB2String, Print2String_append, PrintRangeToString_append,
      PrintRange2String_append, PrintContainerToString_append, PrintContainer2String_append,
      PrintVectorToString_append, PrintVector2String_append, PrintVectorMapping_append,
      PrintVectorRange_append, emit, String.append_assoc]

/-- The sink after any call is the prior sink followed by a string that
depends only on the operation and its arguments. -/
theorem runOp_shift (o : Op) (s : Sink) :
    runOp o s = (runOp o "").map (fun out => s ++ out) := by
  have h := runOp_append o s ""
  rwa [String.append_empty] at h

/-
Characterization lemmas describing what the loops emit.
-/

theorem printVectorRangeLoop_rest (v : List String) (b : Nat) :
    ∀ (rem i : Nat) (s : Sink), b < i → i + rem ≤ v.length →
      printVectorRangeLoop v b i rem s
        = s ++ joinAll (((v.drop i).take rem).map (fun y => ", " ++ y)) := by
  intro rem
  induction rem with
  | zero =>
    intro i s h1 h2
    simp [printVectorRangeLoop, joinAll]
  | succ rem ih =>
    intro i s h1 h2
    have hi : i < v.length := by omega
    have hne : (i == b) = false := by
      simp only [beq_eq_false_iff_ne, ne_eq]
      omega
    rw [printVectorRangeLoop, ih (i + 1) _ (by omega) (by omega)]
    rw [List.drop_eq_getElem_cons hi, List.take_succ_cons, List.getD_eq_getElem v "" hi]
    simp [PrintElement, hne, joinAll, emit, String.append_assoc]

theorem printVectorRangeLoop_first (v : List String) (b rem : Nat) (s : Sink)
    (h : b + rem ≤ v.length) :
    printVectorRangeLoop v b b rem s = s ++ commaSep ((v.drop b).take rem) := by
  cases rem with
  | zero => simp [printVectorRangeLoop, commaSep]
  | succ rem =>
    have hb : b < v.length := by omega
    rw [printVectorRangeLoop, printVectorRangeLoop_rest v b rem (b + 1) _ (by omega) (by omega)]
    rw [List.drop_eq_getElem_cons hb, List.take_succ_cons, List.getD_eq_getElem v "" hb]
    simp [PrintElement, commaSep, emit, String.append_assoc]

theorem printRangeToStringLoop_even (elems : List String) :
    ∀ (k i : Nat) (sink : Sink) (fuel : Nat), k + 1 ≤ fuel →
      printRangeToStringLoop fuel elems i (i + 2 * k) sink
        = some (sink ++ evenPositions elems i k) := by
  intro k
  induction k with
  | zero =>
    intro i sink fuel hf
    cases fuel with
    | zero => omega
    | succ fuel => simp [printRangeToStringLoop, evenPositions]
  | succ k ih =>
    intro i sink fuel hf
    cases fuel with
    | zero => omega
    | succ fuel =>
      have hne : i ≠ i + 2 * (k + 1) := by omega
      rw [printRangeToStringLoop, if_neg hne,
        show i + 2 * (k + 1) = (i + 2) + 2 * k by omega, ih (i + 2) _ fuel (by omega)]
      simp [evenPositions, emit, String.append_assoc]

theorem printRangeToStringLoop_stuck (elems : List String) :
    ∀ (fuel i stop : Nat) (sink : Sink), (∀ j, i + 2 * j ≠ stop) →
      printRangeToStringLoop fuel elems i stop sink = none := by
  intro fuel
  induction fuel with
  | zero => intro i stop sink h; rfl
  | succ fuel ih =>
    intro i stop sink h
    have h0 : i ≠ stop := by have := h 0; omega
    rw [printRangeToStringLoop, if_neg h0]
    exact ih (i + 2) stop _ (fun j => by have := h (j + 1); omega)

theorem printRange2StringLoop_even (elems : List String) :
    ∀ (k i : Nat) (sink : Sink) (fuel : Nat), k + 1 ≤ fuel →
      printRange2StringLoop fuel elems i (i + 2 * k) sink
        = some (sink ++ evenPositions elems i k) := by
  intro k
  induction k with
  | zero =>
    intro i sink fuel hf
    cases fuel with
    | zero => omega
    | succ fuel => simp [printRange2StringLoop, evenPositions]
  | succ k ih =>
    intro i sink fuel hf
    cases fuel with
    | zero => omega
    | succ fuel =>
      have hne : i ≠ i + 2 * (k + 1) := by omega
      rw [printRange2StringLoop, if_neg hne,
        show i + 2 * (k + 1) = (i + 2) + 2 * k by omega, ih (i + 2) _ fuel (by omega)]
      simp [evenPositions, emit, String.append_assoc]

theorem printRange2StringLoop_stuck (elems : List String) :
    ∀ (fuel i stop : Nat) (sink : Sink), (∀ j, i + 2 * j ≠ stop) →
      printRange2StringLoop fuel elems i stop sink = none := by
  intro fuel
  induction fuel with
  | zero => intro i stop sink h; rfl
  | succ fuel ih =>
    intro i stop sink h
    have h0 : i ≠ stop := by have := h 0; omega
    rw [printRange2StringLoop, if_neg h0]
    exact ih (i + 2) stop _ (fun j => by have := h (j + 1); omega)

theorem printVectorToStringLoop_eq (elems : List String) :
    ∀ s : Sink, printVectorToStringLoop elems s
      = s ++ joinAll (elems.map (fun e => " " ++ e)) := by
  induction elems with
  | nil => intro s; simp [printVectorToStringLoop, joinAll]
  | cons e rest ih =>
    intro s
    simp [printVectorToStringLoop, joinAll, emit, ih, String.append_assoc]

theorem printVector2StringLoop_eq (elems : List String) :
    ∀ s : Sink, printVector2StringLoop elems s
      = s ++ joinAll (elems.map (fun e => " " ++ e)) := by
  induction elems with
  | nil => intro s; simp [printVector2StringLoop, joinAll]
  | cons e rest ih =>
    intro s
    simp [printVector2StringLoop, joinAll, emit, ih, String.append_assoc]

/-
Claim theorems.
-/

/-- C1 (code evaluated at the failing point): every stub the disabled
branch declares keeps its enabled-mode argument list and is a true no-op —
zero output, sink unchanged — but the `#else` branch declares no
`PrintRange2String` stub at all, so that one operation has no disabled
counterpart with an identical (or any) call signature: a disabled-mode call
to it does not compile, modelled as `none`. -/
theorem disabled_stubs (o : Op) (sink : Sink) :
    runOpDisabled o sink = (if hasDisabledStub o then some sink else none) ∧
    runOpDisabled (Op.opPrintRange2String [] 0 0) sink = none := by
  constructor
  · cases o <;> rfl
  · rfl

/-- C2 (code evaluated at the failing input): the rendered-range printers
advance the cursor twice per iteration, so on the two-element range
["a", "b"] they emit only "\x7b a \x7d" — not the spec's "\x7b a b \x7d" —
and on a three-element range the loop never terminates (every fuel yields
`none`). -/
theorem rangeToString_skips_elements :
    PrintRangeToString ["a", "b"] 0 2 "" = some "\x7b a \x7d" ∧
    PrintRange2String ["a", "b"] 0 2 "" = some "\x7b a \x7d" ∧
    (∀ fuel, printRangeToStringLoop fuel ["a", "b", "c"] 0 3 "" = none) ∧
    ("\x7b a \x7d" : String) ≠ "\x7b a b \x7d" := by
  refine ⟨by decide, by decide, ?_, by decide⟩
  intro fuel
  exact printRangeToStringLoop_stuck _ fuel 0 3 "" (fun j => by omega)

/-- C3: for `from <= to <= v.size()`, PrintVectorRange writes "\x7b", the
elements at indices [from, to) with the first bare and every further one
prefixed by ", ", then "\x7d" and one newline. -/
theorem printVectorRange_comma_separated (v : List String) (b stop : Nat) (sink : Sink)
    (h1 : b ≤ stop) (h2 : stop ≤ v.length) :
    PrintVectorRange v b stop sink
      = sink ++ "\x7b" ++ commaSep ((v.drop b).take (stop - b)) ++ "\x7d" ++ "\n" := by
  simp only [PrintVectorRange, emit]
  rw [printVectorRangeLoop_first v b (stop - b) _ (by omega)]

/-- C3 witness: the spec instance print-vector-range([5,6,7,8], 1, 3). -/
theorem printVectorRange_comma_separated_witness :
    PrintVectorRange ["5", "6", "7", "8"] 1 3 "" = "\x7b6, 7\x7d\n" := by
  have h := printVectorRange_comma_separated ["5", "6", "7", "8"] 1 3 "" (by decide) (by decide)
  rw [h]
  decide

/-- C4 counterexample: PrintVectorMapping([10,20]) with no label emits a
leading newline (the unconditional `vectorName << "\n\x7b\n"`), so the
output is not the claimed exact byte string. -/
theorem printVectorMapping_leading_newline :
    PrintVectorMapping ["10", "20"] "" "" = "\n\x7b\n\t0 -> 10\n\t1 -> 20\n\x7d\n" ∧
    ("\n\x7b\n\t0 -> 10\n\t1 -> 20\n\x7d\n" : String)
      ≠ "\x7b\n\t0 -> 10\n\t1 -> 20\n\x7d\n" := by
  exact ⟨by decide, by decide⟩

/-- C4 amended: the output of PrintVectorMapping([10,20]) with no label is
exactly "\n\x7b\n\t0 -> 10\n\t1 -> 20\n\x7d\n" — the claimed bytes preceded
by one newline, which is written before the opening brace regardless of the
label. -/
theorem printVectorMapping_10_20 (sink : Sink) :
    PrintVectorMapping ["10", "20"] "" sink
      = sink ++ "\n\x7b\n\t0 -> 10\n\t1 -> 20\n\x7d\n" := by
  have h : PrintVectorMapping ["10", "20"] "" ""
      = "\n\x7b\n\t0 -> 10\n\t1 -> 20\n\x7d\n" := by decide
  calc PrintVectorMapping ["10", "20"] "" sink
      = PrintVectorMapping ["10", "20"] "" (sink ++ "") := by rw [String.append_empty]
    _ = sink ++ PrintVectorMapping ["10", "20"] "" "" :=
        PrintVectorMapping_append ["10", "20"] "" sink ""
    _ = sink ++ "\n\x7b\n\t0 -> 10\n\t1 -> 20\n\x7d\n" := by rw [h]

/-- C5 counterexample: PrintVectorToString prints its label unconditionally
followed by " = ", so with the empty label the output still begins with the
stray label punctuation " = ". -/
theorem printVectorToString_empty_label_stray :
    PrintVectorToString ["x"] "" "" = " = \x7b x \x7d\n" ∧
    (" = \x7b x \x7d\n" : String) ≠ "\x7b x \x7d\n" := by
  exact ⟨by decide, by decide⟩

/-- C5 amended: PrintContainer, Print2String, PrintContainerToString and
PrintContainer2String suppress an empty label entirely (the label plus its
" " or ": " glue is emitted only when the label is nonempty), and
PrintVectorMapping contributes exactly the label text itself; but
PrintVectorToString and PrintVector2String write the label and " = "
unconditionally, so an empty label still leaves " = " in the output. -/
theorem label_handling (elems v : List String) (t nm : String) (sink : Sink) :
    PrintContainer elems nm sink
      = PrintContainer elems "" (sink ++ (if nm = "" then "" else nm ++ " ")) ∧
    Print2String t nm sink
      = Print2String t "" (sink ++ (if nm = "" then "" else nm ++ ": ")) ∧
    PrintContainerToString elems nm sink
      = PrintContainerToString elems "" (sink ++ (if nm = "" then "" else nm ++ " ")) ∧
    PrintContainer2String elems nm sink
      = PrintContainer2String elems "" (sink ++ (if nm = "" then "" else nm ++ " ")) ∧
    PrintVectorMapping v nm sink = PrintVectorMapping v "" (sink ++ nm) ∧
    PrintVectorToString elems nm sink
      = sink ++ nm ++ " = \x7b" ++ joinAll (elems.map (fun e => " " ++ e)) ++ " \x7d" ++ "\n" ∧
    PrintVector2String elems nm sink
      = sink ++ nm ++ " = \x7b" ++ joinAll (elems.map (fun e => " " ++ e)) ++ " \x7d" ++ "\n" := by
  refine ⟨?_, ?_, ?_, ?_, ?_, ?_, ?_⟩
  · by_cases h : nm = "" <;>
      simp [PrintContainer, h, emit, String.append_empty, String.append_assoc]
  · by_cases h : nm = "" <;>
      simp [Print2String, h, emit, String.append_empty, String.append_assoc]
  · by_cases h : nm = "" <;>
      simp [PrintContainerToString, h, emit, String.append_empty, String.append_assoc]
  · by_cases h : nm = "" <;>
      simp [PrintContainer2String, h, emit, String.append_empty, String.append_assoc]
  · simp [PrintVectorMapping, emit, String.append_empty]
  · simp [PrintVectorToString, emit, printVectorToStringLoop_eq, String.append_assoc]
  · simp [PrintVector2String, emit, printVector2StringLoop_eq, String.append_assoc]

/-- C6 counterexample: on the empty range the rendered variant writes
"\x7b \x7d" — the opening "\x7b " supplies one inner space even though the
loop body never executes — not the claimed "\x7b\x7d". -/
theorem rendered_empty_range_has_inner_space :
    PrintRangeToString [] 0 0 "" = some "\x7b \x7d" ∧
    ("\x7b \x7d" : String) ≠ "\x7b\x7d" := by
  exact ⟨by decide, by decide⟩

/-- C6 amended: on an empty range PrintRange writes exactly "\x7b \x7d"
plus a newline, and the rendered variants write exactly "\x7b \x7d" (one
inner space, from the opening "\x7b ") with no trailing newline. -/
theorem empty_range_forms (elems : List String) (i : Nat) (sink : Sink) :
    PrintRange [] sink = sink ++ "\x7b \x7d\n" ∧
    PrintRangeToString elems i i sink = some (sink ++ "\x7b \x7d") ∧
    PrintRange2String elems i i sink = some (sink ++ "\x7b \x7d") := by
  refine ⟨?_, ?_, ?_⟩
  · simp only [PrintRange, printRangeLoop, emit, String.append_assoc]
    rfl
  · simp only [PrintRangeToString, rangeFuel, Nat.sub_self, Nat.zero_div,
      printRangeToStringLoop, eq_self_iff_true, if_true, Option.map_some', emit,
      String.append_assoc]
    rfl
  · simp only [PrintRange2String, rangeFuel, Nat.sub_self, Nat.zero_div,
      printRange2StringLoop, eq_self_iff_true, if_true, Option.map_some', emit,
      String.append_assoc]
    rfl

/-- C7: PrintEQ writes exactly the text of `a`, " = ", the text of `b`,
with no trailing newline, and PrintEQLF writes the same plus one newline. -/
theorem printEQ_forms (a b : String) (sink : Sink) :
    PrintEQ a b sink = sink ++ a ++ " = " ++ b ∧
    PrintEQLF a b sink = sink ++ a ++ " = " ++ b ++ "\n" := by
  exact ⟨rfl, rfl⟩

/-- C8: running any operation twice with the same arguments from sink `s`
appends the single-call output twice; the output of each call is
independent of the sink contents it lands on. -/
theorem double_call_doubles_output (o : Op) (s : Sink) :
    (runOp o s).bind (runOp o) = (runOp o "").map (fun out => s ++ (out ++ out)) := by
  rw [runOp_shift o s]
  cases h : runOp o "" with
  | none => rfl
  | some out =>
    simp only [Option.map_some', Option.some_bind]
    rw [runOp_shift o (s ++ out), h]
    simp [String.append_assoc]

/-- C9: the rendered-range loops advance the cursor twice per iteration:
over a range of even length `2 * k` they terminate (for any sufficient
fuel) having emitted exactly the `k` elements at positions
`i, i + 2, ...`, and over a range of odd length `2 * k + 1` the cursor
steps over the end and the loop never terminates — `none` for every
fuel. -/
theorem rendered_range_double_advance (elems : List String) (i k : Nat) (sink : Sink) :
    (∀ fuel, k + 1 ≤ fuel →
        printRangeToStringLoop fuel elems i (i + 2 * k) sink
          = some (sink ++ evenPositions elems i k)) ∧
    (∀ fuel, printRangeToStringLoop fuel elems i (i + 2 * k + 1) sink = none) ∧
    (∀ fuel, k + 1 ≤ fuel →
        printRange2StringLoop fuel elems i (i + 2 * k) sink
          = some (sink ++ evenPositions elems i k)) ∧
    (∀ fuel, printRange2StringLoop fuel elems i (i + 2 * k + 1) sink = none) := by
  refine ⟨fun fuel hf => printRangeToStringLoop_even elems k i sink fuel hf,
    fun fuel => printRangeToStringLoop_stuck elems fuel i (i + 2 * k + 1) sink
      (fun j => by omega),
    fun fuel hf => printRange2StringLoop_even elems k i sink fuel hf,
    fun fuel => printRange2StringLoop_stuck elems fuel i (i + 2 * k + 1) sink
      (fun j => by omega)⟩

/-- C9 witness: a length-4 range renders the elements at positions 0 and 2;
a length-3 range never terminates. -/
theorem rendered_range_double_advance_witness :
    printRangeToStringLoop 3 ["a", "b", "c", "d"] 0 4 "" = some "a c " ∧
    printRange2StringLoop 5 ["a", "b", "c"] 0 3 "" = none := by
  constructor
  · have h := (rendered_range_double_advance ["a", "b", "c", "d"] 0 2 "").1 3 (by decide)
    exact h.trans (by decide)
  · exact (rendered_range_double_advance ["a", "b", "c"] 0 1 "").2.2.2 5

/-- C10: every enabled-mode operation is append-only and deterministic in
the sink: the result of a call on sink `s` is `s ++` a string depending on
the operation and arguments alone (and the diverging argument tuples
diverge regardless of the sink). -/
theorem append_only_deterministic (o : Op) (s : Sink) :
    runOp o s = (runOp o "").map (fun out => s ++ out) :=
  runOp_shift o s

end gluten
